import Mathlib

/-!
Verification of `src/scrape_agent_properties.py` (Sotheby's listings scraper).

The file shallowly embeds the pure/data-flow core of the two stages:

* `scrape_property_links` — agent-name sanitization (lines 92-95) and the
  auto-scroll loop (lines 41-49), modelled over the sequence of document
  heights the browser reports after each scroll+pause;
* `scrape_details_from_links` — input-row validation (lines 124-143), the
  image-carousel traversal (lines 163-237), field extraction from the four
  labeled column sections (lines 267-323), the amenities block (lines
  325-329), description (331-339), the coordinate regexes (341-346), and row
  assembly / the per-listing try-except emitting one CSV row per accepted
  link (lines 156-442).

Browser interaction is abstracted as an oracle: visiting a link either
raises (navigation failure / timeout, anywhere in the per-listing `try`
body before parsing starts) or yields a `PageData` describing what the
rendered page contains.  Exceptions raised *inside* the parsing code itself
(the un-awaited coroutine in the fallback image comprehension, line 222,
and the read of the possibly-undefined local `amenities_features_content`,
line 328) are modelled explicitly, because they are decided by the
embedded code, not by the browser.

Python string primitives used by the script (`str.startswith`, `str.rstrip`,
`str.replace`, `urllib.parse.urlparse` / `parse_qs`, the `re` patterns) are
modelled by structural functions over `List Char`; percent-decoding is
modelled at code-point level, which agrees with CPython for ASCII escapes.
-/

namespace Scraper

/-! ## Python string primitives -/

/-- `str.startswith(pre)` on character lists. -/
def startsWithChars : List Char → List Char → Bool
  | _, [] => true
  | [], _ :: _ => false
  | c :: cs, p :: ps => c = p && startsWithChars cs ps

/-- `s.startswith(pre)` for Python strings. -/
def pyStartswith (s pre : String) : Bool :=
  startsWithChars s.toList pre.toList

/-- Python truthiness of a string: non-empty. -/
def pyTruthy (s : String) : Bool :=
  !s.toList.isEmpty

/-- The characters Python's no-argument `str.rstrip` removes (ASCII whitespace). -/
def pyIsSpace (c : Char) : Bool :=
  c = ' ' || c = '\t' || c = '\n' || c = '\r' || c = '\x0b' || c = '\x0c'

/-- `str.rstrip()`: drop trailing whitespace. -/
def pyRstrip (s : String) : String :=
  String.mk ((s.toList.reverse.dropWhile pyIsSpace).reverse)

/-- `str.isalnum()` per character, modelled for ASCII letters and digits. -/
def pyIsAlnum (c : Char) : Bool :=
  c.isAlphanum

/-! ## Agent-name sanitization (lines 92-95) -/

/-- Lines 92-95 of `scrape_property_links`:
`"".join(c for c in agent_name if c.isalnum() or c in (' ', '_')).rstrip()`,
then `.replace(' ', '_')` (a single-character replace substitutes each
occurrence), then the fallback to `"property"` when empty. -/
def pySanitize (agent_name : String) : String :=
  let kept := String.mk (agent_name.toList.filter
    (fun c => pyIsAlnum c || c = ' ' || c = '_'))
  let stripped := pyRstrip kept
  let replaced := String.mk (stripped.toList.map (fun c => if c = ' ' then '_' else c))
  if !pyTruthy replaced then "property" else replaced

/-- Modelled from the spec's words (§3 AgentIdentity): "keep alphanumerics,
spaces, underscores; strip trailing whitespace; replace spaces with
underscores; fall back to a fixed default token if the result is empty". -/
def specSanitize (displayName : String) : String :=
  let kept := displayName.toList.filter (fun c => pyIsAlnum c || c = ' ' || c = '_')
  let stripped := (kept.reverse.dropWhile pyIsSpace).reverse
  let replaced := stripped.map (fun c => if c = ' ' then '_' else c)
  if replaced.isEmpty then "property" else String.mk replaced

/-! ## Auto-scroll loop (lines 41-49)

The loop scrolls, pauses, samples `document.body.scrollHeight`, and stops
as soon as a sample equals the previous one (`previous_height` starts at
-1).  Each list element is the height sampled after one scroll+pause, so
the returned count is the number of loop iterations, which equals the
number of scroll actions performed.  `none` means the supplied sample
sequence ran out before the loop stopped. -/

def autoScrollCount (previous_height : Int) : List Int → Option Nat
  | [] => none
  | h :: hs =>
    if h = previous_height then some 1
    else (autoScrollCount h hs).map (· + 1)

/-- Spec-side characterization: the loop stops at the first adjacent pair of
equal samples (the initial `-1` counting as the sample before the first),
and the scroll count is that pair's position plus one. -/
def specStopCount (previous_height : Int) (hs : List Int) : Option Nat :=
  (((previous_height :: hs).zip hs).findIdx? (fun p => p.1 = p.2)).map (· + 1)

/-! ## Regex models

`re.search(r'(\d+)/(\d+)', text)` (line 173) and the two coordinate
patterns (lines 341-342).  `\d` is modelled as an ASCII digit.  For these
patterns a greedy left-to-right scan coincides with Python's backtracking
search: after a maximal digit run the pattern continues with a character
(`/`, `.` or `"`) that no shorter run could turn into a match. -/

/-- Split a maximal digit run off the front. -/
def takeDigits : List Char → List Char × List Char
  | [] => ([], [])
  | c :: cs =>
    if c.isDigit then
      let p := takeDigits cs
      (c :: p.1, p.2)
    else ([], c :: cs)

/-- `int()` of a digit run. -/
def digitsToNat (ds : List Char) : Nat :=
  ds.foldl (fun n c => 10 * n + (c.toNat - '0'.toNat)) 0

/-- Try `(\d+)/(\d+)` anchored at the start of `cs`; the two groups. -/
def fracAt (cs : List Char) : Option (Nat × Nat) :=
  let p1 := takeDigits cs
  if p1.1.isEmpty then none
  else
    match p1.2 with
    | '/' :: rest =>
      let p2 := takeDigits rest
      if p2.1.isEmpty then none else some (digitsToNat p1.1, digitsToNat p2.1)
    | _ => none

/-- Leftmost search for `(\d+)/(\d+)`. -/
def searchFrac : List Char → Option (Nat × Nat)
  | [] => none
  | c :: cs =>
    match fracAt (c :: cs) with
    | some r => some r
    | none => searchFrac cs

/-- Line 173: `re.search(r'(\d+)/(\d+)', pagination_text)`, giving
`(current, total)` of the first match, if any. -/
def parsePagination (pagination_text : String) : Option (Nat × Nat) :=
  searchFrac pagination_text.toList

/-- Match a literal at the front of `cs`; the remainder on success. -/
def stripLit : List Char → List Char → Option (List Char)
  | [], rest => some rest
  | _ :: _, [] => none
  | p :: ps, c :: cs => if p = c then stripLit ps cs else none

/-- `\d+\.?\d*` anchored at the front: the matched characters and the rest. -/
def numTail (cs : List Char) : Option (List Char × List Char) :=
  let p1 := takeDigits cs
  if p1.1.isEmpty then none
  else
    match p1.2 with
    | '.' :: rest =>
      let p2 := takeDigits rest
      some (p1.1 ++ '.' :: p2.1, p2.2)
    | _ => some (p1.1, p1.2)

/-- The capture of `(-?\d+\.?\d*)"` (with the leading `-?` only when
`allowNeg`) anchored at the front of `cs`, requiring the closing quote. -/
def numQuoteAt (allowNeg : Bool) (cs : List Char) : Option String :=
  let p : List Char × List Char :=
    if allowNeg then
      match cs with
      | '-' :: t => (['-'], t)
      | _ => ([], cs)
    else ([], cs)
  match numTail p.2 with
  | some q =>
    match q.2 with
    | '"' :: _ => some (String.mk (p.1 ++ q.1))
    | _ => none
  | none => none

/-- Leftmost search for `<marker>(-?\d+\.?\d*)"`; the captured number. -/
def searchMarked (marker : List Char) (allowNeg : Bool) : List Char → Option String
  | [] => none
  | c :: cs =>
    match stripLit marker (c :: cs) with
    | some rest =>
      match numQuoteAt allowNeg rest with
      | some v => some v
      | none => searchMarked marker allowNeg cs
    | none => searchMarked marker allowNeg cs

/-- The literal prefix of the latitude pattern (line 341). -/
def latMarker : List Char := "\"latitude\":\x7b\"_text\":\"".toList

/-- The literal prefix of the longitude pattern (line 342). -/
def lonMarker : List Char := "\"longitude\":\x7b\"_text\":\"".toList

/-- Line 341: `re.search(r'"latitude":{"_text":"(\d+\.?\d*)"', html)`.
The capture group admits no leading minus sign. -/
def searchLat (html_content : String) : Option String :=
  searchMarked latMarker false html_content.toList

/-- Line 342: `re.search(r'"longitude":{"_text":"(-?\d+\.?\d*)"', html)`.
The capture group admits an optional leading minus sign. -/
def searchLon (html_content : String) : Option String :=
  searchMarked lonMarker true html_content.toList

/-- Lines 344-346: both fields are set only when both patterns match;
otherwise both keep their `''` initialization (lines 258-259). -/
def extractCoords (html_content : String) : String × String :=
  match searchLat html_content, searchLon html_content with
  | some la, some lo => (la, lo)
  | _, _ => ("", "")

/-! ## URL normalization (lines 183-192, 204-214, 225-235)

`urlparse(src)` followed by `parse_qs(parsed_url.query)` and
`query_params.get('url', [None])[0]`; when that is falsy, `src.split('&')[0]`. -/

/-- Hex digit value, or `none` (code points: 0-9 are 48-57, a-f are
97-102, A-F are 65-70). -/
def hexVal (c : Char) : Option Nat :=
  let n := c.toNat
  if 48 ≤ n && n ≤ 57 then some (n - 48)
  else if 97 ≤ n && n ≤ 102 then some (n - 87)
  else if 65 ≤ n && n ≤ 70 then some (n - 55)
  else none

/-- `urllib.parse.unquote` percent-decoding, at code-point level (agrees
with CPython for ASCII escapes); an invalid escape stays literal. -/
def percentDecode : List Char → List Char
  | [] => []
  | '%' :: a :: b :: rest =>
    match hexVal a, hexVal b with
    | some x, some y => Char.ofNat (16 * x + y) :: percentDecode rest
    | _, _ => '%' :: percentDecode (a :: b :: rest)
  | c :: rest => c :: percentDecode rest

/-- `urllib.parse.unquote_plus`: first `+` to space, then percent-decode. -/
def pyUnquotePlus (s : String) : String :=
  String.mk (percentDecode (s.toList.map (fun c => if c = '+' then ' ' else c)))

/-- The part of `cs` before the first occurrence of `sep` (all of it if absent). -/
def beforeChar (sep : Char) : List Char → List Char
  | [] => []
  | c :: cs => if c = sep then [] else c :: beforeChar sep cs

/-- Split once at the first `sep`: `(before, after)`, or `none` if absent. -/
def splitOnceChar (sep : Char) : List Char → Option (List Char × List Char)
  | [] => none
  | c :: cs =>
    if c = sep then some ([], cs)
    else (splitOnceChar sep cs).map (fun p => (c :: p.1, p.2))

/-- `s.split(sep)` on characters (`''.split(sep)` gives one empty chunk). -/
def splitChar (sep : Char) : List Char → List (List Char)
  | [] => [[]]
  | c :: cs =>
    let r := splitChar sep cs
    if c = sep then [] :: r
    else
      match r with
      | [] => [[c]]
      | h :: t => (c :: h) :: t

/-- `urlparse(url).query`: strip the fragment at the first `#`, then take
what follows the first `?`, if anything. -/
def urlQuery (url : String) : String :=
  match splitOnceChar '?' (beforeChar '#' url.toList) with
  | some p => String.mk p.2
  | none => ""

/-- One `name=value` chunk of a query string as `parse_qs` keeps it:
an empty chunk, a chunk with no `=`, or one whose raw value is empty is
dropped (`keep_blank_values=False`); name and value are unquote-plus-ed. -/
def qsPair (chunk : List Char) : Option (String × String) :=
  if chunk.isEmpty then none
  else
    match splitOnceChar '=' chunk with
    | none => none
    | some p =>
      if p.2.isEmpty then none
      else some (pyUnquotePlus (String.mk p.1), pyUnquotePlus (String.mk p.2))

/-- `parse_qs(query).get('url', [None])[0]`: the first value whose decoded
name is `url`. -/
def getUrlParam (query : String) : Option String :=
  (((splitChar '&' query.toList).filterMap qsPair).filter
    (fun p => p.1 = "url")).head?.map (fun p => p.2)

/-- The normalization applied to each captured image source (lines 183-192
and 204-214): take the proxy's `url` query parameter when present and
truthy, else `src.split('&')[0]`. -/
def normalizeImageUrl (src : String) : String :=
  match getUrlParam (urlQuery src) with
  | some u => if pyTruthy u then u else String.mk (beforeChar '&' src.toList)
  | none => String.mk (beforeChar '&' src.toList)

/-! ## Input-row validation (lines 124-143) -/

/-- A row of the input CSV as `csv.DictReader` yields it: `none` means the
column (header) is absent, `some s` that it is present with value `s`. -/
structure InRow where
  link : Option String
  propertyLink : Option String
  name : Option String
  propertyName : Option String
  deriving DecidableEq

/-- An accepted `(name, link)` pair (the dict built at lines 134-137). -/
structure Stub where
  name : String
  link : String
  deriving DecidableEq

/-- Lines 127-139: accept via the `link` column when it starts with `http`,
else via `Property Link`; on acceptance the name is
`row.get('name', row.get('Property Name', 'N/A'))`; otherwise the row is
skipped and contributes nothing. -/
def acceptRow (row : InRow) : Option Stub :=
  let chosen : Option String :=
    match row.link with
    | some l =>
      if pyStartswith l "http" then some l
      else
        match row.propertyLink with
        | some pl => if pyStartswith pl "http" then some pl else none
        | none => none
    | none =>
      match row.propertyLink with
      | some pl => if pyStartswith pl "http" then some pl else none
      | none => none
  match chosen with
  | some l => some { name := row.name.getD (row.propertyName.getD "N/A"), link := l }
  | none => none

/-- Lines 126-139 over the whole file: the accepted links, in input order. -/
def readLinks (rows : List InRow) : List Stub :=
  rows.filterMap acceptRow

/-! ## Image-carousel traversal (lines 163-237) -/

/-- Exceptions the per-listing `try` block can raise. -/
inductive PyExc where
  | timeout
  | nameError
  | attributeError
  | other
  deriving DecidableEq

/-- What the rendered page offers the carousel code.  `pag text first
hasNext slides`: the pagination span is present with inner text `text`;
`first` is the `.c-ldp-hero-slide--current` image element before any click
(`none` = element absent, `some src` = present with that `src` attribute,
itself optional); `slides i` is the same element after `i` clicks.
`noPag imgs` models the fallback branch: the pagination span is absent and
`imgs` lists the rendered `.c-ldp-hero-slide__image` nodes' `src`
attributes. -/
inductive Carousel where
  | noPag (imgs : List (Option String))
  | pag (text : String) (first : Option (Option String)) (hasNext : Bool)
      (slides : Nat → Option (Option String))

/-- Capture one slide (lines 178-192 / 200-214): when the element exists
and its `src` is truthy and starts with `http`, append the normalized URL. -/
def captureSlide (img : Option (Option String)) (links : List String) : List String :=
  match img with
  | some (some src) =>
    if pyTruthy src && pyStartswith src "http" then links ++ [normalizeImageUrl src]
    else links
  | _ => links

/-- Lines 171-237, producing `(clicks performed, imageLinks)` or raising.

Pagination span present (line 171): parse `(\d+)/(\d+)` from its text; on
no match `imageLinks` stays `[]` and nothing else happens (line 218).  On a
match, capture the current slide, then — if the next button exists — click
`total - 1` times (`range(1, total)`), capturing after each click; the
bounded waits of lines 197-198 are assumed to succeed (a timeout there is a
`visit`-level exception in this model).

Pagination span absent (line 219): the comprehension at line 222 calls
`img.get_attribute('src')` without `await`; the truthy coroutine object
then receives `.startswith`, raising `AttributeError` as soon as at least
one image element exists.  With zero elements the comprehension is `[]` and
the normalization loop (lines 223-236) does nothing. -/
def traverseCarousel : Carousel → Except PyExc (Nat × List String)
  | Carousel.noPag imgs =>
    if imgs.isEmpty then Except.ok (0, [])
    else Except.error PyExc.attributeError
  | Carousel.pag text first hasNext slides =>
    match parsePagination text with
    | none => Except.ok (0, [])
    | some pr =>
      let total := pr.2
      let links0 := captureSlide first []
      if hasNext then
        Except.ok (total - 1,
          (List.range (total - 1)).foldl
            (fun acc i => captureSlide (slides (i + 1)) acc) links0)
      else Except.ok (0, links0)

/-! ## Field extraction from the column sections (lines 267-323) -/

/-- The per-listing string locals initialized at lines 242-265 that the
column loop can write. -/
structure Fields where
  property_id : String := ""
  mls_number : String := ""
  price : String := ""
  bedrooms : String := ""
  bathrooms : String := ""
  partial_baths : String := ""
  total_sqft : String := ""
  lot_size_unit : String := ""
  lot_size : String := ""
  property_type : String := ""
  status : String := ""
  marketed_by : String := ""
  style : String := ""
  cooling : String := ""
  interior_features : String := ""
  additional_features : String := ""
  year_built : String := ""
  parking : String := ""
  deriving DecidableEq

/-- Lines 282-296: the `Listing Details` branch of the `if/elif` chain. -/
def applyListingDetails (title content : String) (f : Fields) : Fields :=
  if title = "Property ID" then { f with property_id := content }
  else if title = "MLS#" then { f with mls_number := content }
  else if title = "Price" then { f with price := content }
  else if title = "Property type" then { f with property_type := content }
  else if title = "Marketed By" then { f with marketed_by := content }
  else if title = "Status" then { f with status := content }
  else if title = "Year Built" then { f with year_built := content }
  else f

/-- Lines 297-311: the `Utilities & Building` branch. -/
def applyUtilities (title content : String) (f : Fields) : Fields :=
  if title = "Style" then { f with style := content }
  else if title = "total sqft" then { f with total_sqft := content }
  else if title = "Lot Size Unit" then { f with lot_size_unit := content }
  else if title = "Lot Size" then { f with lot_size := content }
  else if title = "Parking" then { f with parking := content }
  else if title = "cooling" then { f with cooling := content }
  else if title = "Year Built" then { f with year_built := content }
  else f

/-- Lines 312-320: the `Interior` branch.  Note line 315-316 assigns
`bathrooms = content` unconditionally on every occurrence. -/
def applyInterior (title content : String) (f : Fields) : Fields :=
  if title = "Features" then { f with interior_features := content }
  else if title = "Full Bathrooms" then { f with bathrooms := content }
  else if title = "partial baths" then { f with partial_baths := content }
  else if title = "Bedrooms" then { f with bedrooms := content }
  else f

/-- Lines 321-323: the `Additional Features` branch. -/
def applyAdditional (title content : String) (f : Fields) : Fields :=
  if title = "Features" then { f with additional_features := content }
  else f

/-- Lines 282-323: dispatch on the column title. -/
def applyItem (column_title title content : String) (f : Fields) : Fields :=
  if column_title = "Listing Details" then applyListingDetails title content f
  else if column_title = "Utilities & Building" then applyUtilities title content f
  else if column_title = "Interior" then applyInterior title content f
  else if column_title = "Additional Features" then applyAdditional title content f
  else f

/-- An `.m-listing-info__item`: optional title and content elements (their
stripped text when present).  Line 278 requires both. -/
structure InfoItem where
  title : Option String
  content : Option String
  deriving DecidableEq

/-- An `.m-property-details-listing-info__column`: the optional column
title element (line 269-270 requires it) and the item list. -/
structure ColumnDiv where
  title : Option String
  items : List InfoItem
  deriving DecidableEq

/-- Lines 273-280: the inner item loop of one column. -/
def applyItems (column_title : String) (items : List InfoItem) (f : Fields) : Fields :=
  items.foldl (fun f it =>
    match it.title, it.content with
    | some t, some c => applyItem column_title t c f
    | _, _ => f) f

/-- Lines 267-323: the full column loop. -/
def extractColumns (cols : List ColumnDiv) (f : Fields) : Fields :=
  cols.foldl (fun f col =>
    match col.title with
    | some t => applyItems t col.items f
    | none => f) f

/-! ## Amenities block (lines 325-329)

Line 327 (`amenities_features_content = ...`) sits inside the
`if amenities_section_title:` of line 326, but line 328
(`if amenities_features_content:`) is dedented to the outer level.  The
local `amenities_features_content` is not among the initializations of
lines 242-265, so when the heading is absent and no earlier iteration of
the listing loop assigned it, line 328 raises `NameError` — Python locals
persist across iterations of the `for` loop, which the state below
threads.  When line 327 does run, `find_next_sibling` is called with the
CSS-selector-looking string `'.property-details-accordion-content'`, which
BeautifulSoup reads as a tag *name*; `html.parser` produces no tag named
that (a tag name cannot start with `.`), so the lookup yields `None`. -/

/-- The `amenities_features_content` local across loop iterations:
`none` = never assigned (reading raises `NameError`); `some v` = assigned,
where `v` is the sibling lookup's result (`Option String` = `None` or a
tag whose separator-joined text is the string). -/
def AmVar : Type := Option (Option String)

/-- Lines 325-329: returns the `amenities_features` value (still `''`
unless the stored sibling is truthy) and the updated variable state, or
raises `NameError`. -/
def amenitiesStep (headingPresent : Bool) (st : AmVar) :
    Except PyExc (String × AmVar) :=
  let st1 : AmVar := if headingPresent then some none else st
  match st1 with
  | none => Except.error PyExc.nameError
  | some v =>
    match v with
    | some t => if pyTruthy t then Except.ok (t, st1) else Except.ok ("", st1)
    | none => Except.ok ("", st1)

/-! ## The per-listing block and the output rows (lines 156-442) -/

/-- What a successfully navigated listing page offers the parsing code
(the browser oracle's answer). -/
structure PageData where
  carousel : Carousel
  columns : List ColumnDiv
  amenitiesHeading : Bool
  descriptionTitle : Option String
  description : Option String
  html : String

/-- The values the success path gathers before building `row_data`. -/
structure Details where
  fields : Fields
  amenities_features : String
  property_description_title : String
  property_description : String
  latitude : String
  longitude : String
  imageLinks : List String
  clicks : Nat

/-- Lines 161-374: the body of the `try` block after navigation, from the
carousel down to the `details` dict.  Threads the `amenities_features_content`
state; on an exception the state is returned unchanged, which matches the
code because `amenitiesStep` only raises when it did not assign. -/
def extractDetails (st : AmVar) (pd : PageData) : Except PyExc (Details × AmVar) :=
  match traverseCarousel pd.carousel with
  | Except.error e => Except.error e
  | Except.ok car =>
    let f := extractColumns pd.columns {}
    match amenitiesStep pd.amenitiesHeading st with
    | Except.error e => Except.error e
    | Except.ok am =>
      let pdt := match pd.descriptionTitle with
        | some t => t
        | none => ""
      let pdesc := match pd.description with
        | some d => d
        | none => "N/A"
      let co := extractCoords pd.html
      Except.ok ({ fields := f, amenities_features := am.1,
                   property_description_title := pdt,
                   property_description := pdesc,
                   latitude := co.1, longitude := co.2,
                   imageLinks := car.2, clicks := car.1 }, am.2)

/-- One output CSV row, named by the header of line 150; `imageCols` holds
the 60 `Image Link 1..60` cells. -/
structure RowData where
  propertyId : String
  mls : String
  status : String
  agentName : String
  marketedBy : String
  category : String
  propertyType : String
  style : String
  propertyName : String
  propertyLink : String
  price : String
  yearBuilt : String
  bedrooms : String
  fullBathrooms : String
  partialBaths : String
  totalSqft : String
  lotSize : String
  lotSizeUnit : String
  parking : String
  cooling : String
  interiorFeatures : String
  additionalFeatures : String
  latitude : String
  longitude : String
  descriptionTitle : String
  description : String
  imageCols : List String
  deriving DecidableEq

/-- Lines 406-408: `row_data[f'Image Link {i+1}'] =
details['imageLinks'][i] if i < len(details['imageLinks']) else ''`. -/
def imageColumns (imageLinks : List String) : List String :=
  (List.range 60).map (fun i =>
    if i < imageLinks.length then imageLinks.getD i "" else "")

/-- Lines 377-408: the success `row_data`. -/
def buildRow (agent : String) (s : Stub) (d : Details) : RowData :=
  { propertyId := d.fields.property_id
    mls := d.fields.mls_number
    status := d.fields.status
    agentName := agent
    marketedBy := d.fields.marketed_by
    category := "Real Estate"
    propertyType := d.fields.property_type
    style := d.fields.style
    propertyName := s.name
    propertyLink := s.link
    price := d.fields.price
    yearBuilt := d.fields.year_built
    bedrooms := d.fields.bedrooms
    fullBathrooms := d.fields.bathrooms
    partialBaths := d.fields.partial_baths
    totalSqft := d.fields.total_sqft
    lotSize := d.fields.lot_size
    lotSizeUnit := d.fields.lot_size_unit
    parking := d.fields.parking
    cooling := d.fields.cooling
    interiorFeatures := d.fields.interior_features
    additionalFeatures := d.fields.additional_features
    latitude := d.latitude
    longitude := d.longitude
    descriptionTitle := d.property_description_title
    description := d.property_description
    imageCols := imageColumns d.imageLinks }

/-- Lines 413-442: the `error_row_data` written by the `except` handler.
The dict omits `Parking` and every `Image Link` key; `csv.DictWriter`
fills missing keys with its default `restval`, which the csv writer
renders as the empty string. -/
def errorRow (agent : String) (s : Stub) : RowData :=
  { propertyId := "Error Scraping"
    mls := ""
    status := ""
    agentName := agent
    marketedBy := ""
    category := "Real Estate"
    propertyType := ""
    style := ""
    propertyName := s.name
    propertyLink := s.link
    price := "Error Scraping"
    yearBuilt := "Error Scraping"
    bedrooms := ""
    fullBathrooms := ""
    partialBaths := ""
    totalSqft := ""
    lotSize := ""
    lotSizeUnit := ""
    parking := ""
    cooling := ""
    interiorFeatures := ""
    additionalFeatures := ""
    latitude := "Error Scraping"
    longitude := "Error Scraping"
    descriptionTitle := "Error Scraping"
    description := "Error Scraping"
    imageCols := List.replicate 60 "" }

/-- Lines 156-442, one iteration: navigate (the oracle `visit` answers
with the page or with the exception the waits/navigation raised), run the
parsing block, and write exactly one row — `row_data` on success,
`error_row_data` when anything in the `try` body raised. -/
def processListing (agent : String) (visit : Stub → Except PyExc PageData)
    (st : AmVar) (s : Stub) : RowData × AmVar :=
  match visit s with
  | Except.error _ => (errorRow agent s, st)
  | Except.ok pd =>
    match extractDetails st pd with
    | Except.error _ => (errorRow agent s, st)
    | Except.ok r => (buildRow agent s r.1, r.2)

/-- The `for property_data in property_links:` loop, appending one row per
iteration to the open output file. -/
def detailRows (agent : String) (visit : Stub → Except PyExc PageData) :
    AmVar → List Stub → List RowData
  | _, [] => []
  | st, s :: rest =>
    let r := processListing agent visit st s
    r.1 :: detailRows agent visit r.2 rest

/-- The loop started on a fresh Python frame (no local assigned yet). -/
def scrapeRows (agent : String) (stubs : List Stub)
    (visit : Stub → Except PyExc PageData) : List RowData :=
  detailRows agent visit none stubs

/-- Lines 114-445, `scrape_details_from_links` with the input file already
read into `rows`: validate rows, abort (`none`, no output file) when no
link survives, else write one row per accepted link. -/
def scrape_details_from_links (agent : String) (rows : List InRow)
    (visit : Stub → Except PyExc PageData) : Option (List RowData) :=
  let stubs := readLinks rows
  if stubs.isEmpty then none
  else some (scrapeRows agent stubs visit)

/-! ## Spec-side characterizations and concrete instances for the theorems -/

/-- An item's contribution to the `Full Bathrooms` field: its content when
both elements are present and the title is `Full Bathrooms`. -/
def itemFullBath (it : InfoItem) : Option String :=
  match it.title, it.content with
  | some t, some c => if t = "Full Bathrooms" then some c else none
  | _, _ => none

/-- All contents of `Full Bathrooms` pairs under `Interior` columns, in
page order. -/
def fullBathContents (cols : List ColumnDiv) : List String :=
  cols.foldr (fun col acc =>
    (match col.title with
     | some t => if t = "Interior" then col.items.filterMap itemFullBath else []
     | none => []) ++ acc) []

/-- Spec-side acceptance condition for an input row: some recognized link
column holds a value beginning with `http`. -/
def rowAccepted (r : InRow) : Prop :=
  (∃ l, r.link = some l ∧ pyStartswith l "http" = true) ∨
  (∃ pl, r.propertyLink = some pl ∧ pyStartswith pl "http" = true)

/-- Placeholder stub for out-of-range `List.getD`. -/
def defaultStub : Stub := { name := "", link := "" }

/-- Placeholder row for out-of-range `List.getD`. -/
def defaultRow : RowData := errorRow "" defaultStub

/-- A page whose `Amenities & Features` heading is absent (everything else
benign: empty carousel, no columns). -/
def pageNoHeading : PageData :=
  { carousel := Carousel.noPag [], columns := [], amenitiesHeading := false,
    descriptionTitle := none, description := none, html := "" }

/-- The same page with the heading present. -/
def pageWithHeading : PageData :=
  { pageNoHeading with amenitiesHeading := true }

def stub2 : Stub := { name := "Casa Dos", link := "https://example.com/2" }

def visitNoHeading : Stub → Except PyExc PageData :=
  fun _ => Except.ok pageNoHeading

def visitWithHeading : Stub → Except PyExc PageData :=
  fun _ => Except.ok pageWithHeading

/-- A page with no pagination indicator and four statically rendered image
nodes whose sources start with `http`. -/
def page4Static : PageData :=
  { carousel := Carousel.noPag
      [some "http://photos.example.com/1.jpg", some "http://photos.example.com/2.jpg",
       some "http://photos.example.com/3.jpg", some "http://photos.example.com/4.jpg"],
    columns := [], amenitiesHeading := true,
    descriptionTitle := none, description := none, html := "" }

def stub3 : Stub := { name := "Casa Tres", link := "https://example.com/3" }

def visit3 : Stub → Except PyExc PageData :=
  fun _ => Except.ok page4Static

/-- An `Interior` column carrying two `Full Bathrooms` pairs. -/
def cols4 : List ColumnDiv :=
  [{ title := some "Interior",
     items := [{ title := some "Full Bathrooms", content := some "2" },
               { title := some "Full Bathrooms", content := some "3" }] }]

/-- An input row whose link misses the HTTP scheme and has no fallback column. -/
def row6bad : InRow :=
  { link := some "www.example.com/casa-uno", propertyLink := none,
    name := some "Casa Uno", propertyName := none }

/-- A valid input row. -/
def row6good : InRow :=
  { link := some "https://www.sothebysrealty.com/eng/sales/casa-dos",
    propertyLink := none, name := some "Casa Dos", propertyName := none }

def input6 : List InRow := [row6bad, row6good]

def visit6 : Stub → Except PyExc PageData :=
  fun _ => Except.error PyExc.timeout

/-- A pagination-present carousel whose slides are never consulted. -/
def slides9 : Nat → Option (Option String) := fun _ => none

/-- A page whose pagination span is present but carries no `d+/d+` text. -/
def page9 : PageData :=
  { carousel := Carousel.pag "Photos" none false slides9, columns := [],
    amenitiesHeading := true, descriptionTitle := none, description := none,
    html := "" }

def stub9 : Stub := { name := "Casa Nueve", link := "https://example.com/9" }

def visit9 : Stub → Except PyExc PageData :=
  fun _ => Except.ok page9

/-- Structured data of a southern-hemisphere listing: both coordinates
present, the latitude negative. -/
def negHtml : String :=
  "<script>\x7b\"latitude\":\x7b\"_text\":\"-12.0464\"\x7d,\"longitude\":\x7b\"_text\":\"-77.0428\"\x7d\x7d</script>"

def stubW : Stub := { name := "Casa Uno", link := "https://example.com/1" }

def visitW : Stub → Except PyExc PageData :=
  fun _ => Except.error PyExc.timeout

/-! ## Helper lemmas -/

theorem sanitizeTail (l : List Char) :
    (if !pyTruthy (String.mk l) then "property" else String.mk l)
      = (if l.isEmpty then "property" else String.mk l) := by
  cases l <;> rfl

theorem pySanitize_eq_spec (s : String) : pySanitize s = specSanitize s :=
  sanitizeTail ((((s.toList.filter
    (fun c => pyIsAlnum c || c = ' ' || c = '_')).reverse.dropWhile
      pyIsSpace).reverse).map (fun c => if c = ' ' then '_' else c))

theorem autoScrollCount_eq_spec : ∀ (hs : List Int) (prev : Int),
    autoScrollCount prev hs = specStopCount prev hs := by
  intro hs
  induction hs with
  | nil => intro prev; rfl
  | cons h t ih =>
    intro prev
    unfold autoScrollCount specStopCount
    rw [List.zip_cons_cons, List.findIdx?_cons]
    by_cases hp : h = prev
    · rw [if_pos hp, if_pos (by simpa using hp.symm)]
      rfl
    · rw [if_neg hp, if_neg (by simpa using fun e => hp e.symm)]
      rw [List.findIdx?_succ, ih h]
      unfold specStopCount
      rw [Option.map_map]

theorem imageColumns_eq (links : List String) :
    imageColumns links = links.take 60 ++ List.replicate (60 - links.length) "" := by
  have main : ∀ (n : Nat) (l : List String),
      (List.range n).map (fun i => if i < l.length then l.getD i "" else "")
        = l.take n ++ List.replicate (n - l.length) "" := by
    intro n
    induction n with
    | zero => intro l; simp
    | succ m ih =>
      intro l
      rw [List.range_succ, List.map_append, ih]
      by_cases h : m < l.length
      · have h1 : m + 1 - l.length = 0 := by omega
        have h2 : m - l.length = 0 := by omega
        rw [h1, h2, List.take_succ, List.getElem?_eq_getElem h]
        simp only [List.replicate, List.map_cons, List.map_nil, if_pos h,
          List.getD_eq_getElem?_getD, List.getElem?_eq_getElem h, Option.getD_some,
          Option.toList_some, List.append_nil]
      · have h3 : l.length ≤ m := by omega
        have h4 : m + 1 - l.length = (m - l.length) + 1 := by omega
        rw [h4, List.replicate_succ']
        rw [List.take_of_length_le h3, List.take_of_length_le (by omega)]
        simp [h]
  exact main 60 links

theorem applyListingDetails_bathrooms (t c : String) (f : Fields) :
    (applyListingDetails t c f).bathrooms = f.bathrooms := by
  unfold applyListingDetails
  split_ifs <;> rfl

theorem applyUtilities_bathrooms (t c : String) (f : Fields) :
    (applyUtilities t c f).bathrooms = f.bathrooms := by
  unfold applyUtilities
  split_ifs <;> rfl

theorem applyAdditional_bathrooms (t c : String) (f : Fields) :
    (applyAdditional t c f).bathrooms = f.bathrooms := by
  unfold applyAdditional
  split_ifs <;> rfl

theorem applyInterior_bathrooms (t c : String) (f : Fields) :
    (applyInterior t c f).bathrooms
      = if t = "Full Bathrooms" then c else f.bathrooms := by
  unfold applyInterior
  by_cases h1 : t = "Features"
  · subst h1; rfl
  · by_cases h2 : t = "Full Bathrooms"
    · subst h2; rfl
    · by_cases h3 : t = "partial baths"
      · subst h3; rfl
      · by_cases h4 : t = "Bedrooms"
        · subst h4; rfl
        · rw [if_neg h1, if_neg h2, if_neg h3, if_neg h4, if_neg h2]

theorem applyItem_bathrooms (ct t c : String) (f : Fields) :
    (applyItem ct t c f).bathrooms
      = if ct = "Interior" ∧ t = "Full Bathrooms" then c else f.bathrooms := by
  unfold applyItem
  by_cases h1 : ct = "Listing Details"
  · rw [if_pos h1, applyListingDetails_bathrooms,
      if_neg (fun hc => by rw [h1] at hc; exact absurd hc.1 (by decide))]
  · rw [if_neg h1]
    by_cases h2 : ct = "Utilities & Building"
    · rw [if_pos h2, applyUtilities_bathrooms,
        if_neg (fun hc => by rw [h2] at hc; exact absurd hc.1 (by decide))]
    · rw [if_neg h2]
      by_cases h3 : ct = "Interior"
      · rw [if_pos h3, applyInterior_bathrooms]
        by_cases h4 : t = "Full Bathrooms"
        · rw [if_pos h4, if_pos ⟨h3, h4⟩]
        · rw [if_neg h4, if_neg (fun hc => h4 hc.2)]
      · rw [if_neg h3]
        by_cases h5 : ct = "Additional Features"
        · rw [if_pos h5, applyAdditional_bathrooms, if_neg (fun hc => h3 hc.1)]
        · rw [if_neg h5, if_neg (fun hc => h3 hc.1)]

theorem getLastD_append (l1 l2 : List String) (d : String) :
    (l1 ++ l2).getLastD d = l2.getLastD (l1.getLastD d) := by
  induction l1 generalizing d with
  | nil => rfl
  | cons a l1 ih =>
    rw [List.cons_append, List.getLastD_cons, ih, List.getLastD_cons]

theorem applyItems_bathrooms (ct : String) (items : List InfoItem) (f : Fields) :
    (applyItems ct items f).bathrooms
      = if ct = "Interior"
        then (items.filterMap itemFullBath).getLastD f.bathrooms
        else f.bathrooms := by
  induction items generalizing f with
  | nil => by_cases h : ct = "Interior" <;> simp [applyItems, h]
  | cons it rest ih =>
    rcases it with ⟨ot, oc⟩
    show (applyItems ct rest _).bathrooms = _
    cases ot with
    | none =>
      rw [ih]
      by_cases h : ct = "Interior" <;> simp [itemFullBath, h, List.filterMap_cons]
    | some t =>
      cases oc with
      | none =>
        rw [ih]
        by_cases h : ct = "Interior" <;> simp [itemFullBath, h, List.filterMap_cons]
      | some c =>
        rw [ih]
        by_cases h : ct = "Interior"
        · rw [if_pos h, if_pos h, applyItem_bathrooms]
          by_cases ht : t = "Full Bathrooms"
          · subst ht
            rw [if_pos ⟨h, rfl⟩]
            have hfm : List.filterMap itemFullBath
                (InfoItem.mk (some "Full Bathrooms") (some c) :: rest)
                  = c :: List.filterMap itemFullBath rest := by
              rw [List.filterMap_cons]
              rfl
            rw [hfm, List.getLastD_cons]
          · rw [if_neg (fun hc => ht hc.2)]
            have hfm : List.filterMap itemFullBath (InfoItem.mk (some t) (some c) :: rest)
                  = List.filterMap itemFullBath rest := by
              rw [List.filterMap_cons]
              simp [itemFullBath, ht]
            rw [hfm]
        · rw [if_neg h, if_neg h, applyItem_bathrooms, if_neg (fun hc => h hc.1)]

theorem extractColumns_bathrooms (cols : List ColumnDiv) (f : Fields) :
    (extractColumns cols f).bathrooms
      = (fullBathContents cols).getLastD f.bathrooms := by
  induction cols generalizing f with
  | nil => rfl
  | cons col rest ih =>
    rcases col with ⟨ot, items⟩
    cases ot with
    | none =>
      show (extractColumns rest f).bathrooms = _
      rw [ih]
      simp [fullBathContents]
    | some t =>
      show (extractColumns rest (applyItems t items f)).bathrooms = _
      rw [ih, applyItems_bathrooms]
      by_cases h : t = "Interior"
      · rw [if_pos h]
        show _ = ((match some t with
            | some t => if t = "Interior" then items.filterMap itemFullBath else []
            | none => []) ++ fullBathContents rest).getLastD f.bathrooms
        rw [getLastD_append]
        simp [h]
      · rw [if_neg h]
        show _ = ((match some t with
            | some t => if t = "Interior" then items.filterMap itemFullBath else []
            | none => []) ++ fullBathContents rest).getLastD f.bathrooms
        simp [h]

theorem processListing_fst (agent : String) (visit : Stub → Except PyExc PageData)
    (st : AmVar) (s : Stub) :
    (processListing agent visit st s).1 = errorRow agent s ∨
    ∃ d, (processListing agent visit st s).1 = buildRow agent s d := by
  unfold processListing
  rcases hv : visit s with e | pd
  · exact Or.inl rfl
  · dsimp only
    rcases hd : extractDetails st pd with e2 | r
    · exact Or.inl rfl
    · exact Or.inr ⟨r.1, rfl⟩

theorem detailRows_length (agent : String) (visit : Stub → Except PyExc PageData) :
    ∀ (stubs : List Stub) (st : AmVar),
      (detailRows agent visit st stubs).length = stubs.length := by
  intro stubs
  induction stubs with
  | nil => intro st; rfl
  | cons s rest ih =>
    intro st
    simp [detailRows, ih]

theorem detailRows_getD (agent : String) (visit : Stub → Except PyExc PageData) :
    ∀ (stubs : List Stub) (st : AmVar) (i : Nat), i < stubs.length →
      ((detailRows agent visit st stubs).getD i defaultRow
          = errorRow agent (stubs.getD i defaultStub) ∨
       ∃ d, (detailRows agent visit st stubs).getD i defaultRow
          = buildRow agent (stubs.getD i defaultStub) d) := by
  intro stubs
  induction stubs with
  | nil =>
    intro st i h
    exact absurd h (by simp)
  | cons s rest ih =>
    intro st i h
    cases i with
    | zero => simpa [detailRows] using processListing_fst agent visit st s
    | succ j =>
      have hj : j < rest.length := by simpa using h
      simpa [detailRows] using ih (processListing agent visit st s).2 j hj

/-! ## The claims -/

/-- C1: for every run of the detail extractor over a list of accepted
links, the output contains exactly one row per accepted link, in the same
relative order, each row a success row or an error-marker row carrying the
original name and link — never zero rows for a link, never duplicates. -/
theorem c1_one_row_per_accepted_link :
    ∀ (agent : String) (stubs : List Stub) (visit : Stub → Except PyExc PageData),
      (scrapeRows agent stubs visit).length = stubs.length ∧
      ∀ i, i < stubs.length →
        (((scrapeRows agent stubs visit).getD i defaultRow).propertyName
            = (stubs.getD i defaultStub).name ∧
         ((scrapeRows agent stubs visit).getD i defaultRow).propertyLink
            = (stubs.getD i defaultStub).link) ∧
        ((scrapeRows agent stubs visit).getD i defaultRow
            = errorRow agent (stubs.getD i defaultStub) ∨
         ∃ d, (scrapeRows agent stubs visit).getD i defaultRow
            = buildRow agent (stubs.getD i defaultStub) d) := by
  intro agent stubs visit
  unfold scrapeRows
  refine ⟨detailRows_length agent visit stubs none, ?_⟩
  intro i hi
  have hshape := detailRows_getD agent visit stubs none i hi
  refine ⟨?_, hshape⟩
  rcases hshape with h | ⟨d, h⟩ <;> rw [h] <;> exact ⟨rfl, rfl⟩

/-- C1 witness: at a concrete one-link input the emitted row carries the
input's name. -/
theorem c1_one_row_per_accepted_link_witness :
    ((scrapeRows "Agent X" [stubW] visitW).getD 0 defaultRow).propertyName
      = ([stubW].getD 0 defaultStub).name :=
  (((c1_one_row_per_accepted_link "Agent X" [stubW] visitW).2 0 (by decide)).1).1

/-- C2 (code bug): contrary to the claim, a listing page lacking the
`Amenities & Features` heading does NOT complete with the field at its
sentinel — line 328 reads the local `amenities_features_content` that
line 327 (inside the `if` of line 326) never assigned, raising `NameError`
and taking the error-row path; with the heading present the same page
yields a success row. -/
theorem c2_missing_heading_aborts :
    scrapeRows "Agent X" [stub2] visitNoHeading = [errorRow "Agent X" stub2] ∧
    (scrapeRows "Agent X" [stub2] visitWithHeading).map RowData.propertyId = [""] :=
  ⟨rfl, rfl⟩

/-- C3 (code bug): contrary to the claim, the static-image fallback does
not emit a success row with the N normalized URLs — line 222 calls the
element handles' async `get_attribute` without `await`, so the comprehension
invokes `.startswith` on a coroutine object and raises `AttributeError` as
soon as one image node exists; the listing takes the error-row path. -/
theorem c3_static_fallback_raises :
    traverseCarousel page4Static.carousel = Except.error PyExc.attributeError ∧
    scrapeRows "Agent X" [stub3] visit3 = [errorRow "Agent X" stub3] :=
  ⟨rfl, rfl⟩

/-- C4 counterexample: an `Interior` section with two `Full Bathrooms`
pairs, contents "2" then "3"; the output field is not the first
occurrence's "2". -/
theorem c4_first_occurrence_counterexample :
    fullBathContents cols4 = ["2", "3"] ∧
    ¬ ((extractColumns cols4 {}).bathrooms = "2") :=
  ⟨rfl, by decide⟩

/-- C4 (amended): lines 315-316 assign on every occurrence, so the
`Full Bathrooms` output field holds the content of the LAST `Full
Bathrooms` pair under `Interior` (a later duplicate overwrites an
already-set value); on the two-pair page it is "3". -/
theorem c4_full_bathrooms_last_occurrence :
    (∀ (cols : List ColumnDiv) (f : Fields),
      (extractColumns cols f).bathrooms
        = (fullBathContents cols).getLastD f.bathrooms) ∧
    (extractColumns cols4 {}).bathrooms = "3" :=
  ⟨extractColumns_bathrooms, by decide⟩

/-- C5: the 60 `Image Link` cells of a success row are exactly the first
60 captured URLs in slide order — the excess beyond 60 dropped — and every
unused cell is the empty string, never omitted, never another sentinel. -/
theorem c5_image_columns_pad_truncate :
    ∀ links : List String,
      imageColumns links = links.take 60 ++ List.replicate (60 - links.length) "" ∧
      (imageColumns links).length = 60 :=
  fun links => ⟨imageColumns_eq links, by simp [imageColumns]⟩

/-- C6: a row is accepted exactly when its `link` column, or failing that
its `Property Link` column, starts with `http`; a row accepted by neither
contributes no output row, so one invalid plus one valid row yield exactly
one output row, for the valid link. -/
theorem c6_input_row_validation :
    (∀ r : InRow, (acceptRow r).isSome ↔ rowAccepted r) ∧
    (scrape_details_from_links "Agent X" input6 visit6).map List.length = some 1 ∧
    (scrape_details_from_links "Agent X" input6 visit6).map
        (fun out => (out.getD 0 defaultRow).propertyLink)
      = some "https://www.sothebysrealty.com/eng/sales/casa-dos" := by
  refine ⟨?_, rfl, rfl⟩
  intro r
  rcases r with ⟨lk, plk, nm, pnm⟩
  unfold acceptRow rowAccepted
  cases lk with
  | none =>
    cases plk with
    | none => simp
    | some pl => by_cases h : pyStartswith pl "http" = true <;> simp [h]
  | some l =>
    by_cases h : pyStartswith l "http" = true
    · simp [h]
    · cases plk with
      | none => simp [h]
      | some pl => by_cases h2 : pyStartswith pl "http" = true <;> simp [h, h2]

/-- C7 counterexample: on the height sequence [100, 300, 500, 500] the
loop performs 4 scroll actions (one per sample), not the 3 the claim
states. -/
theorem c7_three_scrolls_counterexample :
    ¬ (autoScrollCount (-1) [100, 300, 500, 500] = some 3) := by
  decide

/-- C7 (amended): the auto-scroll loop terminates exactly when a sampled
height equals the previous sample (two-sample stability, no fixed
iteration count), performing one scroll per sample; on [100, 300, 500,
500] it stops at the 3rd-to-4th comparison having performed exactly 4
scroll actions — the stabilizing sample itself follows a scroll. -/
theorem c7_scroll_stops_on_stable_height :
    (∀ (prev : Int) (hs : List Int),
      autoScrollCount prev hs = specStopCount prev hs) ∧
    autoScrollCount (-1) [100, 300, 500, 500] = some 4 :=
  ⟨fun prev hs => autoScrollCount_eq_spec hs prev, by decide⟩

/-- C8 counterexample: the code does not sanitize "Jane  O'Brien!!" to the
claim's "Jane_OBrien". -/
theorem c8_sanitize_counterexample :
    ¬ (pySanitize "Jane  O\x27Brien!!" = "Jane_OBrien") := by
  decide

/-- C8 (amended): sanitization keeps alphanumerics, spaces and
underscores, strips trailing whitespace, replaces each space with an
underscore and falls back to the fixed token "property" when empty;
"Jane  O'Brien!!" (two inner spaces) therefore sanitizes to
"Jane__OBrien", each space becoming its own underscore. -/
theorem c8_sanitize_double_underscore :
    (∀ s, pySanitize s = specSanitize s) ∧
    pySanitize "Jane  O\x27Brien!!" = "Jane__OBrien" :=
  ⟨pySanitize_eq_spec, by decide⟩

/-- C9: when the pagination indicator is present but its text has no
`digits/digits` pattern, the extractor performs no clicks, captures zero
image URLs and does not fall back to the static image nodes; the emitted
row is a success row with all 60 `Image Link` columns empty. -/
theorem c9_unparsable_pagination_no_images :
    (∀ (text : String) (first : Option (Option String)) (hasNext : Bool)
        (slides : Nat → Option (Option String)),
      parsePagination text = none →
        traverseCarousel (Carousel.pag text first hasNext slides)
          = Except.ok (0, [])) ∧
    (scrapeRows "Agent X" [stub9] visit9).map RowData.propertyId = [""] ∧
    (scrapeRows "Agent X" [stub9] visit9).map RowData.imageCols
      = [List.replicate 60 ""] := by
  refine ⟨?_, rfl, rfl⟩
  intro text first hasNext slides h
  unfold traverseCarousel
  dsimp only
  rw [h]

/-- C9 witness: a concrete pagination text without the pattern. -/
theorem c9_unparsable_pagination_no_images_witness :
    traverseCarousel (Carousel.pag "Photos" none false slides9)
      = Except.ok (0, []) :=
  c9_unparsable_pagination_no_images.1 "Photos" none false slides9 (by decide)

/-- C10: coordinates are recorded only when both structured-data patterns
match; the latitude pattern rejects a leading minus while the longitude
pattern accepts one, so a page embedding a negative (southern-hemisphere)
latitude leaves both output fields empty although both coordinates are
present. -/
theorem c10_negative_latitude_dropped :
    (∀ html : String, searchLat html = none → extractCoords html = ("", "")) ∧
    searchLat negHtml = none ∧
    searchLon negHtml = some "-77.0428" ∧
    extractCoords negHtml = ("", "") := by
  refine ⟨?_, by decide, by decide, by decide⟩
  intro html h
  cases hy : searchLon html <;> simp [extractCoords, h, hy]

/-- C10 witness: the southern-hemisphere page evaluates to empty fields. -/
theorem c10_negative_latitude_dropped_witness :
    extractCoords negHtml = ("", "") :=
  c10_negative_latitude_dropped.1 negHtml (by decide)

end Scraper
